import Mathlib

/-!
Shallow embedding of the analysis engine in `src/core/analysis.py`
(`DeepAnalysisEngine`) of the E.D.A repository, together with proofs about
the claims of its specification.

Modelling conventions:
* pandas/numpy floating point values are modelled as rationals (`ℚ`);
* a numeric dataframe column is a `List (Option ℚ)` (`none` models `NaN`),
  an object (categorical) column is a `List String`;
* the external fitted estimators (scikit-learn `KMeans`, `DBSCAN`,
  `RandomForest*`, the `shap` explainer and the `scipy.stats` test
  statistics) are opaque to the engine, so they are passed in as function
  parameters (`MLBackend`, `FIBackend`, `StatBackend`); everything the
  engine itself computes from their outputs is embedded from the source;
* fallible indexing (`k_range[0]` on an empty range, which raises
  `IndexError` in Python) is modelled with `Option`/an explicit
  `indexError` outcome;
* returned Python dicts are modelled as structures; `dict` values keyed by
  arbitrary labels become association lists.
-/

set_option maxHeartbeats 1000000

namespace EDA

/-! ## Data model: pandas dataframes as consumed by the engine -/

/-- Payload of one dataframe column: numeric dtype (with `none` for a
missing value / `NaN`) or object (categorical) dtype. -/
inductive ColData where
  | numeric (vals : List (Option ℚ))
  | object (vals : List String)
deriving DecidableEq

/-- A named dataframe column. -/
structure Column where
  name : String
  data : ColData
deriving DecidableEq

/-- Whether the column has a numeric dtype (selected by
`df.select_dtypes(include=[np.number])`). -/
def Column.isNumeric (c : Column) : Bool :=
  match c.data with
  | .numeric _ => true
  | .object _ => false

/-- Whether the column has object dtype (`y.dtype == 'object'`, and also what
`select_dtypes(include=['object', 'category'])` selects in this model). -/
def Column.isObject (c : Column) : Bool :=
  match c.data with
  | .numeric _ => false
  | .object _ => true

/-- Number of entries of the column (including missing ones). -/
def Column.length (c : Column) : Nat :=
  match c.data with
  | .numeric vals => vals.length
  | .object vals => vals.length

/-- Embedding of `Series.nunique()`: the number of distinct non-missing
values. -/
def Column.nunique (c : Column) : Nat :=
  match c.data with
  | .numeric vals => (vals.filterMap id).dedup.length
  | .object vals => vals.dedup.length

/-- Embedding of `Series.dropna()` for a numeric column: the list of its
non-missing values, in order. For an object column the engine never uses
this accessor. -/
def Column.numericVals (c : Column) : List ℚ :=
  match c.data with
  | .numeric vals => vals.filterMap id
  | .object _ => []

/-- A dataframe: an ordered list of named columns. -/
structure Dataset where
  columns : List Column
deriving DecidableEq

/-- Columns selected by `df.select_dtypes(include=[np.number])`. -/
def Dataset.numericColumns (df : Dataset) : List Column :=
  df.columns.filter (fun c => c.isNumeric)

/-- Columns selected by `df.select_dtypes(include=['object', 'category'])`. -/
def Dataset.objectColumns (df : Dataset) : List Column :=
  df.columns.filter (fun c => !c.isNumeric)

/-- Row count of the dataframe (`len(df)`, and also `len(X)` for any column
selection `X = df[cols]`). In pandas every column has this common length;
`Dataset.WellFormed` states that invariant for the model. -/
def Dataset.rowCount (df : Dataset) : Nat :=
  (df.columns.head?.map Column.length).getD 0

/-- Data-model invariant of §3 of the specification: the row count is
identical across columns. -/
def Dataset.WellFormed (df : Dataset) : Prop :=
  ∀ c ∈ df.columns, c.length = df.rowCount

instance (df : Dataset) : Decidable df.WellFormed :=
  inferInstanceAs (Decidable (∀ c ∈ df.columns, c.length = df.rowCount))

/-- Embedding of `df.drop(columns=[target_column])`. -/
def Dataset.dropColumn (df : Dataset) (nm : String) : Dataset :=
  ⟨df.columns.filter (fun c => c.name ≠ nm)⟩

/-! ## Correlation analysis (`_find_strong_correlations`, lines 296-311) -/

/-- A correlation matrix as handed to `_find_strong_correlations`:
`cols` are the column labels, `rows` the square matrix of coefficients. -/
structure CorrMatrix where
  cols : List String
  rows : List (List ℚ)
deriving DecidableEq

/-- Embedding of `corr_matrix.iloc[i, j]`. -/
def CorrMatrix.iloc (m : CorrMatrix) (i j : Nat) : ℚ :=
  (m.rows.getD i []).getD j 0

/-- One entry of the `strong_correlations` list (source lines 304-309). -/
structure StrongCorr where
  variable1 : String
  variable2 : String
  correlation : ℚ
  strength : String
deriving DecidableEq

/-- The record appended for the pair `(i, j)` (source lines 304-309):
strength is `'very strong'` when `abs(corr_value) >= 0.9`, else `'strong'`. -/
def strongCorrEntry (m : CorrMatrix) (i j : Nat) : StrongCorr :=
  { variable1 := m.cols.getD i ""
    variable2 := m.cols.getD j ""
    correlation := m.iloc i j
    strength := if 9/10 ≤ |m.iloc i j| then "very strong" else "strong" }

/-- The unsorted list built by the double loop of
`_find_strong_correlations`: for each `i`, for each `j` in
`range(i+1, len(columns))`, keep the pair when `abs(corr) >= threshold`. -/
def upperTriangleStrong (m : CorrMatrix) (threshold : ℚ) : List StrongCorr :=
  (List.range m.cols.length).flatMap (fun i =>
    (List.range' (i + 1) (m.cols.length - (i + 1))).filterMap (fun j =>
      if threshold ≤ |m.iloc i j| then some (strongCorrEntry m i j) else none))

/-- Sort key of `sorted(strong_corrs, key=lambda x: abs(x['correlation']),
reverse=True)`: descending absolute correlation. -/
def absCorrGE (a b : StrongCorr) : Prop := |b.correlation| ≤ |a.correlation|

instance : DecidableRel absCorrGE :=
  fun a b => inferInstanceAs (Decidable (|b.correlation| ≤ |a.correlation|))

instance : IsTotal StrongCorr absCorrGE :=
  ⟨fun a b => le_total |b.correlation| |a.correlation|⟩

instance : IsTrans StrongCorr absCorrGE := ⟨fun _ _ _ h1 h2 => le_trans h2 h1⟩

/-- Embedding of `_find_strong_correlations` (lines 296-311). The source's
default `threshold` argument is `0.7`; its single caller uses that default,
passed here explicitly as `7/10`. -/
def find_strong_correlations (m : CorrMatrix) (threshold : ℚ) : List StrongCorr :=
  List.insertionSort absCorrGE (upperTriangleStrong m threshold)

/-! ## Hypothesis tests (`_perform_hypothesis_tests`, lines 313-346) -/

/-- One hypothesis-test outcome (source lines 336-342). -/
structure HypTestEntry where
  test : String
  statistic : ℚ
  p_value : ℚ
  significant : Bool
  groups_count : Nat
deriving DecidableEq

/-- External statistical routines used by `statistical_analysis`: the
`scipy.stats` test statistics, pandas `describe`, the (unseeded) normality
subsample, and the pandas correlation/skew/kurtosis computations. They are
opaque numerical collaborators, so they are parameters of the embedding. -/
structure StatBackend where
  ttest : List ℚ → List ℚ → ℚ × ℚ
  anova : List (List ℚ) → ℚ × ℚ
  describe : List Column → List (String × List (String × ℚ))
  shapiroSample : List ℚ → List ℚ
  shapiro : List ℚ → ℚ × ℚ
  corr : List Column → CorrMatrix
  skew : List ℚ → ℚ
  kurtosis : List ℚ → ℚ

/-- Embedding of `[group[num_col].dropna() for name, group in
df.groupby(cat_col)]` for one categorical/numeric column pair: the numeric
values are partitioned by the category of the same row. Group keys are
taken in order of first occurrence (pandas sorts the keys; no property
below depends on the order of the groups). -/
def groupsFor (catVals : List String) (numVals : List (Option ℚ)) : List (List ℚ) :=
  catVals.dedup.map (fun key =>
    ((catVals.zip numVals).filter (fun p => p.1 = key)).filterMap (fun p => p.2))

/-- Embedding of `groups = [g for g in groups if len(g) > 1]`
(source line 323): drop groups with fewer than 2 observations. -/
def validGroups (groups : List (List ℚ)) : List (List ℚ) :=
  groups.filter (fun g => 1 < g.length)

/-- Embedding of the dispatch of `_perform_hypothesis_tests` (lines
325-342) on the raw groups of one pair: with fewer than 2 valid groups no
entry is produced; with exactly 2 a t-test runs; with 3 or more an ANOVA
runs. The scipy calls are total functions of the backend here, so the
per-pair `except` branch (lines 343-344) is unreachable in the model. -/
def dispatchGroups (B : StatBackend) (groupsRaw : List (List ℚ)) : Option HypTestEntry :=
  if 2 ≤ (validGroups groupsRaw).length then
    some (if (validGroups groupsRaw).length = 2 then
      { test := "t-test"
        statistic := (B.ttest ((validGroups groupsRaw).getD 0 []) ((validGroups groupsRaw).getD 1 [])).1
        p_value := (B.ttest ((validGroups groupsRaw).getD 0 []) ((validGroups groupsRaw).getD 1 [])).2
        significant :=
          (B.ttest ((validGroups groupsRaw).getD 0 []) ((validGroups groupsRaw).getD 1 [])).2 < 1/20
        groups_count := (validGroups groupsRaw).length }
    else
      { test := "ANOVA"
        statistic := (B.anova (validGroups groupsRaw)).1
        p_value := (B.anova (validGroups groupsRaw)).2
        significant := (B.anova (validGroups groupsRaw)).2 < 1/20
        groups_count := (validGroups groupsRaw).length })
  else none

/-- The groups of one categorical×numeric column pair. -/
def pairGroups (cat num : Column) : List (List ℚ) :=
  match cat.data, num.data with
  | .object cs, .numeric ns => groupsFor cs ns
  | _, _ => []

/-- The hypothesis-test entry produced for one categorical×numeric column
pair (`None` when the pair is skipped). -/
def pairTest (B : StatBackend) (cat num : Column) : Option HypTestEntry :=
  dispatchGroups B (pairGroups cat num)

/-- Embedding of `_perform_hypothesis_tests` over all categorical×numeric
pairs, keyed like the source dict: `f'{cat_col}_vs_{num_col}'`. -/
def perform_hypothesis_tests (B : StatBackend) (df : Dataset) : List (String × HypTestEntry) :=
  df.objectColumns.flatMap (fun cat =>
    df.numericColumns.filterMap (fun num =>
      (pairTest B cat num).map (fun e => (cat.name ++ "_vs_" ++ num.name, e))))

/-! ## Statistical analysis (`statistical_analysis`, lines 22-64) -/

/-- One entry of `results['distribution_tests']` (source lines 44-50). -/
structure DistEntry where
  shapiro_wilk_stat : ℚ
  shapiro_wilk_p_value : ℚ
  is_normal : Bool
  skewness : ℚ
  kurtosis : ℚ

/-- The `results['correlations']` sub-dict (source lines 55-58). -/
structure CorrelationsSection where
  correlation_matrix : CorrMatrix
  strong_correlations : List StrongCorr

/-- The value returned by `statistical_analysis`. -/
structure StatisticalResult where
  descriptive_stats : List (String × List (String × ℚ))
  distribution_tests : List (String × DistEntry)
  correlations : Option CorrelationsSection
  hypothesis_tests : List (String × HypTestEntry)

/-- Embedding of `statistical_analysis` (lines 22-64): descriptive stats on
the numeric columns, a normality entry per non-constant numeric column,
the correlation section when at least two numeric columns exist, and the
hypothesis tests. -/
def statistical_analysis (B : StatBackend) (df : Dataset) : StatisticalResult :=
  { descriptive_stats := B.describe df.numericColumns
    distribution_tests := df.numericColumns.filterMap (fun c =>
      if 1 < c.nunique then
        some (c.name,
          { shapiro_wilk_stat := (B.shapiro (B.shapiroSample c.numericVals)).1
            shapiro_wilk_p_value := (B.shapiro (B.shapiroSample c.numericVals)).2
            is_normal := 1/20 < (B.shapiro (B.shapiroSample c.numericVals)).2
            skewness := B.skew c.numericVals
            kurtosis := B.kurtosis c.numericVals })
      else none)
    correlations :=
      if 1 < df.numericColumns.length then
        some { correlation_matrix := B.corr df.numericColumns
               strong_correlations :=
                 find_strong_correlations (B.corr df.numericColumns) (7/10) }
      else none
    hypothesis_tests := perform_hypothesis_tests B df }

/-! ## Clustering (`clustering_analysis`, lines 66-123, and `_find_elbow`,
lines 348-361) -/

/-- Embedding of `K_range = range(2, min(11, len(X)))` (line 89): the
candidate cluster counts, i.e. `2, 3, ..., min(11, len(X)) - 1`. Python's
`range` excludes its upper bound. -/
def kRange (nRows : Nat) : List Nat :=
  List.range' 2 (min 11 nRows - 2)

/-- Embedding of `np.diff`: `out[i] = a[i+1] - a[i]`. -/
def npDiff (l : List ℚ) : List ℚ :=
  (l.zip l.tail).map (fun p => p.2 - p.1)

/-- Embedding of `np.argmax`: index of the first occurrence of the maximum
(0 on an empty list; the source guards the call with `len(diffs2) > 0`). -/
def argmaxIdx (l : List ℚ) : Nat :=
  match l with
  | [] => 0
  | x :: xs => if ∀ y ∈ xs, y ≤ x then 0 else argmaxIdx xs + 1

/-- Embedding of `_find_elbow` (lines 348-361). List indexing `k_range[·]`
is modelled with `List.get?`; a `none` result models the `IndexError`
Python raises when the index is out of range (which happens exactly for an
empty `k_range`, since every index used is otherwise clamped below the
length). -/
def findElbow (kr : List Nat) (inertias : List ℚ) : Option Nat :=
  if inertias.length < 3 then kr.get? 0
  else if 0 < (npDiff (npDiff inertias)).length then
    kr.get? (min (argmaxIdx (npDiff (npDiff inertias)) + 2) (kr.length - 1))
  else
    kr.get? (kr.length / 2)

/-- External clustering estimators (scikit-learn `KMeans` with
`random_state=42, n_init=10`, and `DBSCAN(eps=0.5, min_samples=5)`): opaque
numerical collaborators, parameters of the embedding. Each is a function of
the input matrix (and the cluster count for `KMeans`). -/
structure MLBackend where
  kmeansInertia : Nat → List (List ℚ) → ℚ
  kmeansLabels : Nat → List (List ℚ) → List Nat
  kmeansCentroids : Nat → List (List ℚ) → List (List ℚ)
  dbscanLabels : List (List ℚ) → List Int

/-- Mean of the non-missing values of a numeric column (`Series.mean()`
skips `NaN`). -/
def colMean (vals : List (Option ℚ)) : ℚ :=
  (vals.filterMap id).sum / ((vals.filterMap id).length : ℚ)

/-- Embedding of `fillna(mean)` on one column: replace each missing value
by the column mean. -/
def fillnaMean (vals : List (Option ℚ)) : List ℚ :=
  vals.map (fun v => v.getD (colMean vals))

/-- Embedding of `X = df[numerical_cols].fillna(df[numerical_cols].mean())`
(line 82): a fresh matrix (given column-wise), leaving `df` untouched. -/
def Dataset.clusterMatrix (df : Dataset) : List (List ℚ) :=
  df.numericColumns.map (fun c =>
    match c.data with
    | .numeric vals => fillnaMean vals
    | .object _ => [])

/-- Embedding of `pd.Series(labels).value_counts().to_dict()`: the count of
each distinct value, as an association list (the dict's keys are the
distinct values; `value_counts` orders them by descending count). -/
def countDesc {α : Type} (a b : α × Nat) : Prop := b.2 ≤ a.2

instance {α : Type} : DecidableRel (@countDesc α) :=
  fun a b => inferInstanceAs (Decidable (b.2 ≤ a.2))

instance {α : Type} : IsTotal (α × Nat) countDesc := ⟨fun a b => le_total b.2 a.2⟩

instance {α : Type} : IsTrans (α × Nat) countDesc := ⟨fun _ _ _ h1 h2 => le_trans h2 h1⟩

def valueCounts {α : Type} [DecidableEq α] (l : List α) : List (α × Nat) :=
  List.insertionSort countDesc (l.dedup.map (fun v => (v, l.count v)))

/-- The `results['kmeans']` sub-dict (source lines 107-113). -/
structure KMeansSummary where
  n_clusters : Nat
  labels : List Nat
  centroids : List (List ℚ)
  inertia : ℚ
  cluster_sizes : List (Nat × Nat)

/-- The `results['dbscan']` sub-dict (source lines 114-119). -/
structure DBSCANSummary where
  labels : List Int
  n_clusters : Nat
  n_noise_points : Nat
  cluster_sizes : List (Int × Nat)

/-- The value returned by a successful `clustering_analysis`. -/
structure ClusteringResult where
  kmeans : KMeansSummary
  dbscan : DBSCANSummary

/-- Outcome of `clustering_analysis`: the error dict of line 80, an
uncaught `IndexError` escaping from `_find_elbow` (line 351), or the
result dict. -/
inductive ClusteringOutcome where
  | errorResult (msg : String)
  | indexError
  | ok (result : ClusteringResult)

/-- Embedding of lines 114-119: the DBSCAN summary computed from the labels
returned by the estimator. `-1` is the DBSCAN noise sentinel;
`dbscan_labels[dbscan_labels != -1]` is the mask selecting non-noise
labels. -/
def dbscanSummary (labels : List Int) : DBSCANSummary :=
  { labels := labels
    n_clusters := labels.dedup.length - (if -1 ∈ labels then 1 else 0)
    n_noise_points := labels.count (-1)
    cluster_sizes := valueCounts (labels.filter (fun c => c ≠ -1)) }

/-- Embedding of lines 86-96: when the caller supplies no cluster count,
sweep `K_range`, record one inertia per candidate, and select by
`_find_elbow`. -/
def clusteringChooseK (B : MLBackend) (df : Dataset) (nClusters : Option Nat) : Option Nat :=
  match nClusters with
  | some k => some k
  | none =>
      findElbow (kRange df.rowCount)
        ((kRange df.rowCount).map (fun k => B.kmeansInertia k df.clusterMatrix))

/-- Embedding of lines 98-120: the result dict built after the final fits
with the chosen cluster count `k`. -/
def clusteringFitResult (B : MLBackend) (df : Dataset) (k : Nat) : ClusteringResult :=
  { kmeans :=
      { n_clusters := k
        labels := B.kmeansLabels k df.clusterMatrix
        centroids := B.kmeansCentroids k df.clusterMatrix
        inertia := B.kmeansInertia k df.clusterMatrix
        cluster_sizes := valueCounts (B.kmeansLabels k df.clusterMatrix) }
    dbscan := dbscanSummary (B.dbscanLabels df.clusterMatrix) }

/-- Embedding of `clustering_analysis` (lines 66-123). -/
def clustering_analysis (B : MLBackend) (df : Dataset) (nClusters : Option Nat) : ClusteringOutcome :=
  if df.numericColumns.length < 2 then
    .errorResult "Need at least 2 numerical columns for clustering"
  else
    match clusteringChooseK B df nClusters with
    | none => .indexError
    | some k => .ok (clusteringFitResult B df k)

/-! ## Feature importance (`feature_importance_analysis`, lines 125-220) -/

/-- One row of the `feature_importance` / `shap_importance` frames: a
feature name and its (native or SHAP) importance value. In the source the
value column is named `importance` in the first frame and
`shap_importance` in the second. -/
structure FIRecord where
  feature : String
  importance : ℚ
deriving DecidableEq

/-- Sort key of `sort_values(..., ascending=False)` on the value column. -/
def impDesc (a b : FIRecord) : Prop := b.importance ≤ a.importance

instance : DecidableRel impDesc :=
  fun a b => inferInstanceAs (Decidable (b.importance ≤ a.importance))

instance : IsTotal FIRecord impDesc := ⟨fun a b => le_total b.importance a.importance⟩

instance : IsTrans FIRecord impDesc := ⟨fun _ _ _ h1 h2 => le_trans h2 h1⟩

/-- Building a frame from a column of feature names and a column of values
(`pd.DataFrame({'feature': ..., '...importance': ...})`). -/
def zipRecords (features : List String) (vals : List ℚ) : List FIRecord :=
  (features.zip vals).map (fun p => { feature := p.1, importance := p.2 })

/-- External supervised-learning collaborators of
`feature_importance_analysis`: the one-hot encoding's resulting column
labels, the fitted ensemble's native importances, the held-out performance
metrics, and the SHAP step. `shapMeanAbs` returns the per-feature mean
absolute SHAP values of the whole `try` block of lines 190-202 (including
the multi-class first-slice handling); `none` models an exception raised
anywhere inside that block. -/
structure FIBackend where
  encodedColumns : Dataset → List String
  importances : String → Dataset → Column → List ℚ
  performance : String → Dataset → Column → List (String × ℚ)
  shapMeanAbs : String → Dataset → Column → Option (List ℚ)

/-- The value returned by a successful `feature_importance_analysis`
(source lines 210-216). -/
structure FeatureImportanceResult where
  task_type : String
  performance : List (String × ℚ)
  feature_importance : List FIRecord
  shap_importance : List FIRecord
  top_features : List String

/-- Outcome of `feature_importance_analysis`: the error dict of line 139
or the result dict. -/
inductive FIOutcome where
  | errorResult (msg : String)
  | ok (result : FeatureImportanceResult)

/-- Embedding of the automatic task-type inference (lines 149-153):
classification when the target has object dtype or fewer than 10 distinct
values, else regression. -/
def inferTask (taskType : String) (y : Column) : String :=
  if taskType = "auto" then
    if y.isObject || y.nunique < 10 then "classification" else "regression"
  else taskType

/-- The result dict built by a successful `feature_importance_analysis`
(lines 141-216) for the target column `y`: the native importances are
ranked descending, and the SHAP importances are either the ranked SHAP
values or — when anything in the SHAP block raises — the native
importances ranked under the `shap_importance` key (lines 203-208). -/
def fiSuccessResult (B : FIBackend) (df : Dataset) (target : String)
    (taskType : String) (y : Column) : FeatureImportanceResult :=
  { task_type := inferTask taskType y
    performance := B.performance (inferTask taskType y) (df.dropColumn target) y
    feature_importance :=
      List.insertionSort impDesc (zipRecords (B.encodedColumns (df.dropColumn target))
        (B.importances (inferTask taskType y) (df.dropColumn target) y))
    shap_importance :=
      match B.shapMeanAbs (inferTask taskType y) (df.dropColumn target) y with
      | some sv =>
          List.insertionSort impDesc
            (zipRecords (B.encodedColumns (df.dropColumn target)) sv)
      | none =>
          List.insertionSort impDesc (zipRecords (B.encodedColumns (df.dropColumn target))
            (B.importances (inferTask taskType y) (df.dropColumn target) y))
    top_features :=
      ((List.insertionSort impDesc (zipRecords (B.encodedColumns (df.dropColumn target))
        (B.importances (inferTask taskType y) (df.dropColumn target) y))).take 10).map
        (fun r => r.feature) }

/-- Embedding of `feature_importance_analysis` (lines 125-220). The guard
of line 138 (`target_column not in df.columns`) is the `find?` match. -/
def feature_importance_analysis (B : FIBackend) (df : Dataset) (target : String)
    (taskType : String) : FIOutcome :=
  match df.columns.find? (fun c => c.name = target) with
  | none => .errorResult ("Target column " ++ target ++ " not found")
  | some y => .ok (fiSuccessResult B df target taskType y)

/-! ## Frame effects

The engine never assigns into the dataframe it receives: every frame
operation in the three analysis operations (`select_dtypes`, column
selection, `fillna` without `inplace`, `drop(columns=...)`,
`pd.get_dummies`) returns a new object. The `_st` forms below make the
state of the caller's dataframe after the call explicit: each returns the
operation's outcome together with the dataframe the caller still holds. -/

def statistical_analysis_st (B : StatBackend) (df : Dataset) :
    StatisticalResult × Dataset :=
  (statistical_analysis B df, df)

def clustering_analysis_st (B : MLBackend) (df : Dataset) (nClusters : Option Nat) :
    ClusteringOutcome × Dataset :=
  (clustering_analysis B df nClusters, df)

def feature_importance_analysis_st (B : FIBackend) (df : Dataset) (target : String)
    (taskType : String) : FIOutcome × Dataset :=
  (feature_importance_analysis B df target taskType, df)

/-! ## Concrete fixtures used by witness and counterexample theorems -/

/-- A trivial clustering backend (all estimator outputs constant). -/
def mlTrivialBackend : MLBackend :=
  ⟨fun _ _ => 0, fun _ _ => [], fun _ _ => [], fun _ => []⟩

/-- A trivial statistics backend. -/
def statTrivialBackend : StatBackend :=
  ⟨fun _ _ => (0, 0), fun _ => (0, 0), fun _ => [], fun l => l, fun _ => (0, 0),
   fun _ => ⟨[], []⟩, fun _ => 0, fun _ => 0⟩

/-- A trivial feature-importance backend whose SHAP step always fails. -/
def fiTrivialBackend : FIBackend :=
  ⟨fun _ => [], fun _ _ _ => [], fun _ _ _ => [], fun _ _ _ => none⟩

/-- A 2×2 correlation matrix with a perfect off-diagonal correlation. -/
def corrWitnessMatrix : CorrMatrix := ⟨["a", "b"], [[1, 1], [1, 1]]⟩

/-- A dataframe with a single numeric column. -/
def oneNumericColumn : Dataset := ⟨[⟨"x", .numeric [some 1, some 2, some 3]⟩]⟩

/-- Two numeric columns, two rows: triggers the empty candidate range. -/
def twoRowCluster : Dataset :=
  ⟨[⟨"a", .numeric [some 1, some 2]⟩, ⟨"b", .numeric [some 3, some 4]⟩]⟩

/-- Two numeric columns, four rows. -/
def fourRowCluster : Dataset :=
  ⟨[⟨"a", .numeric [some 1, some 2, some 5, some 6]⟩,
    ⟨"b", .numeric [some 3, some 4, some 7, some 8]⟩]⟩

/-- Twelve rows across two numeric columns. -/
def twelveRowCluster : Dataset :=
  ⟨[⟨"a", .numeric [some 1, some 2, some 3, some 4, some 5, some 6,
      some 7, some 8, some 9, some 10, some 11, some 12]⟩,
    ⟨"b", .numeric [some 2, some 4, some 6, some 8, some 10, some 12,
      some 14, some 16, some 18, some 20, some 22, some 24]⟩]⟩

/-- A numeric target column with exactly 10 distinct values. -/
def tenDistinctTarget : Column :=
  ⟨"t", .numeric [some 0, some 1, some 2, some 3, some 4,
    some 5, some 6, some 7, some 8, some 9]⟩

/-- A dataframe holding `tenDistinctTarget` plus one predictor column. -/
def tenDistinctDataset : Dataset :=
  ⟨[⟨"x", .numeric [some 1, some 1, some 1, some 1, some 1,
      some 1, some 1, some 1, some 1, some 1]⟩,
    tenDistinctTarget]⟩

/-- A categorical column with two categories of two rows each. -/
def witnessCat : Column := ⟨"g", .object ["u", "w", "u", "w"]⟩

/-- A numeric column paired with `witnessCat`. -/
def witnessNum : Column := ⟨"v", .numeric [some 1, some 2, some 3, some 4]⟩

/-! ## Helper lemmas -/

/-- On a nonempty candidate list, `_find_elbow` always succeeds and returns
an element of the list: every index it uses is within bounds. -/
theorem findElbow_mem (kr : List Nat) (inertias : List ℚ) (h : kr ≠ []) :
    ∃ k, findElbow kr inertias = some k ∧ k ∈ kr := by
  have hlen : 0 < kr.length := List.length_pos.mpr h
  have key : ∀ i, i < kr.length → ∃ k, kr.get? i = some k ∧ k ∈ kr := by
    intro i hi
    refine ⟨kr.get ⟨i, hi⟩, List.get?_eq_get hi, List.get_mem ..⟩
  unfold findElbow
  split
  · exact key 0 hlen
  · split
    · exact key _ (lt_of_le_of_lt (Nat.min_le_right _ _) (by omega))
    · exact key _ (Nat.div_lt_self hlen (by norm_num))

/-- Membership in the unsorted strong-correlation list: exactly the upper
triangle pairs whose absolute coefficient reaches the threshold. -/
theorem mem_upperTriangleStrong (m : CorrMatrix) (t : ℚ) (e : StrongCorr) :
    e ∈ upperTriangleStrong m t ↔
      ∃ i j, i < j ∧ j < m.cols.length ∧ t ≤ |m.iloc i j| ∧ e = strongCorrEntry m i j := by
  unfold upperTriangleStrong
  rw [List.mem_flatMap]
  constructor
  · rintro ⟨i, hi, hmem⟩
    rw [List.mem_range] at hi
    rw [List.mem_filterMap] at hmem
    obtain ⟨j, hj, hfe⟩ := hmem
    rw [List.mem_range'_1] at hj
    split_ifs at hfe with ht
    exact ⟨i, j, by omega, by omega, ht, (Option.some.inj hfe).symm⟩
  · rintro ⟨i, j, hij, hjn, ht, he⟩
    refine ⟨i, List.mem_range.mpr (by omega), ?_⟩
    rw [List.mem_filterMap]
    refine ⟨j, List.mem_range'_1.mpr ⟨by omega, by omega⟩, ?_⟩
    rw [if_pos ht, he]

/-- Length of a filtered deduplicated list: removing one designated value
from a duplicate-free list shortens it by one exactly when present. -/
theorem length_filter_ne_of_nodup {α : Type} [DecidableEq α] (a : α) :
    ∀ l : List α, l.Nodup →
      (l.filter (fun c => c ≠ a)).length = l.length - (if a ∈ l then 1 else 0)
  | [], _ => by simp
  | b :: l, h => by
    obtain ⟨hb, hl⟩ := List.nodup_cons.mp h
    by_cases hba : b = a
    · subst hba
      rw [List.filter_cons_of_neg (by simp)]
      rw [length_filter_ne_of_nodup b l hl, if_neg hb,
        if_pos (List.mem_cons_self b l), List.length_cons]
      omega
    · rw [List.filter_cons_of_pos (by simpa using hba)]
      rw [List.length_cons, length_filter_ne_of_nodup a l hl]
      have hmem : (a ∈ b :: l) ↔ (a ∈ l) := by
        constructor
        · intro hx
          rcases List.mem_cons.mp hx with h' | h'
          · exact absurd h'.symm hba
          · exact h'
        · exact fun hx => List.mem_cons.mpr (Or.inr hx)
      by_cases ha : a ∈ l
      · rw [if_pos ha, if_pos (hmem.mpr ha)]
        have h1 : 1 ≤ l.length := List.length_pos.mpr (List.ne_nil_of_mem ha)
        simp only [List.length_cons]
        omega
      · rw [if_neg ha, if_neg (fun hx => ha (hmem.mp hx))]
        simp only [List.length_cons]
        omega

/-! ## Claim theorems -/

/-- C4: for every correlation matrix, the strong-correlations list is a
permutation of the once-per-unordered-pair (i<j) upper-triangle list,
contains exactly the pairs with absolute correlation ≥ 0.70, is sorted in
non-increasing order of absolute correlation, and labels exactly the pairs
with absolute correlation ≥ 0.90 as "very strong" (the rest "strong"). -/
theorem strong_correlations_spec (m : CorrMatrix) :
    (find_strong_correlations m (7/10)).Perm (upperTriangleStrong m (7/10)) ∧
    (∀ e, e ∈ find_strong_correlations m (7/10) ↔
      ∃ i j, i < j ∧ j < m.cols.length ∧ (7/10 : ℚ) ≤ |m.iloc i j| ∧
        e = strongCorrEntry m i j) ∧
    List.Sorted absCorrGE (find_strong_correlations m (7/10)) ∧
    ∀ e ∈ find_strong_correlations m (7/10),
      (e.strength = "very strong" ↔ (9/10 : ℚ) ≤ |e.correlation|) ∧
      (e.strength = "strong" ↔ |e.correlation| < 9/10) := by
  refine ⟨List.perm_insertionSort _ _, ?_, List.sorted_insertionSort _ _, ?_⟩
  · intro e
    rw [find_strong_correlations, List.mem_insertionSort, mem_upperTriangleStrong]
  · intro e he
    rw [find_strong_correlations, List.mem_insertionSort, mem_upperTriangleStrong] at he
    obtain ⟨i, j, _, _, _, he⟩ := he
    subst he
    by_cases h9 : (9/10 : ℚ) ≤ |m.iloc i j|
    · constructor
      · show (if (9 : ℚ)/10 ≤ |m.iloc i j| then "very strong" else "strong") = "very strong" ↔
          (9/10 : ℚ) ≤ |m.iloc i j|
        rw [if_pos h9]
        exact iff_of_true rfl h9
      · show (if (9 : ℚ)/10 ≤ |m.iloc i j| then "very strong" else "strong") = "strong" ↔
          |m.iloc i j| < 9/10
        rw [if_pos h9]
        exact iff_of_false (by decide) (not_lt.mpr h9)
    · constructor
      · show (if (9 : ℚ)/10 ≤ |m.iloc i j| then "very strong" else "strong") = "very strong" ↔
          (9/10 : ℚ) ≤ |m.iloc i j|
        rw [if_neg h9]
        exact iff_of_false (by decide) h9
      · show (if (9 : ℚ)/10 ≤ |m.iloc i j| then "very strong" else "strong") = "strong" ↔
          |m.iloc i j| < 9/10
        rw [if_neg h9]
        exact iff_of_true rfl (lt_of_not_le h9)

/-- Witness for C4 at a concrete matrix: the perfectly correlated pair of
`corrWitnessMatrix` is reported. -/
theorem strong_correlations_spec_witness :
    strongCorrEntry corrWitnessMatrix 0 1 ∈
      find_strong_correlations corrWitnessMatrix (7/10) :=
  ((strong_correlations_spec corrWitnessMatrix).2.1 _).mpr
    ⟨0, 1, by norm_num, by norm_num [corrWitnessMatrix],
     by norm_num [corrWitnessMatrix, CorrMatrix.iloc], rfl⟩

/-- C5: for every categorical×numeric column pair, after partitioning the
numeric values by category and dropping groups with fewer than 2
observations, the dispatcher emits no entry iff fewer than 2 valid groups
remain, a t-test entry iff exactly 2 remain, and an ANOVA entry iff 3 or
more remain. -/
theorem hypothesis_test_dispatch_spec (B : StatBackend) (cat num : Column) :
    (pairTest B cat num = none ↔ (validGroups (pairGroups cat num)).length < 2) ∧
    ((∃ e, pairTest B cat num = some e ∧ e.test = "t-test") ↔
      (validGroups (pairGroups cat num)).length = 2) ∧
    ((∃ e, pairTest B cat num = some e ∧ e.test = "ANOVA") ↔
      3 ≤ (validGroups (pairGroups cat num)).length) := by
  unfold pairTest dispatchGroups
  by_cases hl : 2 ≤ (validGroups (pairGroups cat num)).length
  · rw [if_pos hl]
    by_cases he : (validGroups (pairGroups cat num)).length = 2
    · rw [if_pos he]
      refine ⟨iff_of_false (by simp) (by omega), iff_of_true ⟨_, rfl, rfl⟩ he, ?_⟩
      refine iff_of_false ?_ (by omega)
      rintro ⟨e, hee, het⟩
      rw [Option.some.injEq] at hee
      subst hee
      have hs : "t-test" = "ANOVA" := het
      exact absurd hs (by decide)
    · rw [if_neg he]
      refine ⟨iff_of_false (by simp) (by omega), ?_,
        iff_of_true ⟨_, rfl, rfl⟩ (by omega)⟩
      refine iff_of_false ?_ he
      rintro ⟨e, hee, het⟩
      rw [Option.some.injEq] at hee
      subst hee
      have hs : "ANOVA" = "t-test" := het
      exact absurd hs (by decide)
  · rw [if_neg hl]
    refine ⟨iff_of_true rfl (by omega), ?_, ?_⟩ <;>
      refine iff_of_false (fun hx => ?_) (by omega) <;>
      · obtain ⟨e, hee, -⟩ := hx
        exact Option.noConfusion hee

/-- Witness for C5 at a concrete pair with two valid groups of two rows
each: a t-test entry is emitted. -/
theorem hypothesis_test_dispatch_spec_witness :
    ∃ e, pairTest statTrivialBackend witnessCat witnessNum = some e ∧ e.test = "t-test" :=
  ((hypothesis_test_dispatch_spec statTrivialBackend witnessCat witnessNum).2.1).mpr
    (by decide)

/-- C6 counterexample: on the candidate range `[2, 3]` with two inertia
samples, `_find_elbow` returns the first candidate `2`, not the middle of
the candidate range (`k_range[len(k_range) // 2] = 3`) asserted by the
claim. -/
theorem elbow_few_samples_cex :
    findElbow [2, 3] [10, 5] = some 2 ∧
    findElbow [2, 3] [10, 5] ≠
      some (([2, 3] : List Nat).getD (([2, 3] : List Nat).length / 2) 0) := by
  decide

/-- C6 (amended): whenever fewer than 3 inertia samples exist — whether
one or two — `_find_elbow` returns the first candidate k (line 351); the
middle-of-range default of line 361 is unreachable. -/
theorem elbow_few_samples_first_candidate (kr : List Nat) (inertias : List ℚ)
    (h : inertias.length < 3) : findElbow kr inertias = kr.get? 0 := by
  unfold findElbow
  rw [if_pos h]

/-- Witness for the amended C6 at a concrete call with two samples. -/
theorem elbow_few_samples_first_candidate_witness :
    findElbow [2, 3] [9, 4] = some 2 :=
  (elbow_few_samples_first_candidate [2, 3] [9, 4] (by decide)).trans rfl

/-- C7: in the density-based summary, `n_noise_points` is the number of
points labelled with the noise sentinel `-1`, `n_clusters` is the number
of distinct non-noise labels, and `cluster_sizes` has exactly the
non-noise labels as keys, each with its occurrence count. -/
theorem dbscan_summary_spec (labels : List Int) :
    (dbscanSummary labels).n_noise_points = labels.count (-1) ∧
    (dbscanSummary labels).n_clusters =
      (labels.dedup.filter (fun c => c ≠ -1)).length ∧
    (∀ p ∈ (dbscanSummary labels).cluster_sizes, p.1 ≠ -1 ∧ p.2 = labels.count p.1) ∧
    (∀ c ∈ labels, c ≠ -1 → (c, labels.count c) ∈ (dbscanSummary labels).cluster_sizes) := by
  refine ⟨rfl, ?_, ?_, ?_⟩
  · show labels.dedup.length - (if -1 ∈ labels then 1 else 0) = _
    rw [length_filter_ne_of_nodup (-1) labels.dedup (List.nodup_dedup labels)]
    by_cases hm : (-1 : Int) ∈ labels
    · rw [if_pos hm, if_pos (List.mem_dedup.mpr hm)]
    · rw [if_neg hm, if_neg (fun hx => hm (List.mem_dedup.mp hx))]
  · intro p hp
    have hp2 : p ∈ valueCounts (labels.filter (fun c => c ≠ -1)) := hp
    unfold valueCounts at hp2
    rw [List.mem_insertionSort, List.mem_map] at hp2
    obtain ⟨v, hv, hpv⟩ := hp2
    have hvf := List.mem_filter.mp (List.mem_dedup.mp hv)
    have hvne : v ≠ -1 := by simpa using hvf.2
    subst hpv
    exact ⟨hvne, List.count_filter (by simpa using hvne)⟩
  · intro c hc hcne
    show (c, labels.count c) ∈ valueCounts (labels.filter (fun x => x ≠ -1))
    unfold valueCounts
    rw [List.mem_insertionSort, List.mem_map]
    refine ⟨c, List.mem_dedup.mpr (List.mem_filter.mpr ⟨hc, by simpa using hcne⟩), ?_⟩
    rw [List.count_filter (by simpa using hcne)]

/-- Witness for C7 at concrete labels `[0, -1, 0, 1]`: the non-noise label
`0` is reported with its occurrence count. -/
theorem dbscan_summary_spec_witness :
    ((0 : Int), ([0, -1, 0, 1] : List Int).count 0) ∈
      (dbscanSummary [0, -1, 0, 1]).cluster_sizes :=
  (dbscan_summary_spec [0, -1, 0, 1]).2.2.2 0 (by decide) (by decide)

/-- C1 counterexample: with 12 rows, `min(11, row_count) = 11`, yet the
candidate sweep `range(2, min(11, len(X)))` stops at 10 — the upper bound
the claim asserts to be swept inclusively is never a candidate. -/
theorem clustering_candidate_sweep_cex :
    kRange twelveRowCluster.rowCount = [2, 3, 4, 5, 6, 7, 8, 9, 10] ∧
    min 11 twelveRowCluster.rowCount = 11 ∧
    11 ∉ kRange twelveRowCluster.rowCount := by
  decide

/-- C1 (amended): when the caller supplies no cluster count, the sweep
covers k = 2 .. min(11, row_count) − 1 inclusive (Python's `range` excludes
its upper bound), and on a well-formed dataframe with at least 2 numeric
columns and at least 3 rows the elbow-chosen k is always one of those
candidates, hence lies within [2, min(11, row_count) − 1]. -/
theorem clustering_auto_k_in_range (B : MLBackend) (df : Dataset)
    (_hwf : df.WellFormed) (hcols : 2 ≤ df.numericColumns.length)
    (hrows : 3 ≤ df.rowCount) :
    (∀ k, k ∈ kRange df.rowCount ↔ 2 ≤ k ∧ k < min 11 df.rowCount) ∧
    ∃ r, clustering_analysis B df none = .ok r ∧
      r.kmeans.n_clusters ∈ kRange df.rowCount ∧
      2 ≤ r.kmeans.n_clusters ∧ r.kmeans.n_clusters ≤ min 11 df.rowCount - 1 := by
  have hchar : ∀ k, k ∈ kRange df.rowCount ↔ 2 ≤ k ∧ k < min 11 df.rowCount := by
    intro k
    rw [kRange, List.mem_range'_1]
    omega
  refine ⟨hchar, ?_⟩
  have hne : kRange df.rowCount ≠ [] := by
    have hlen : (kRange df.rowCount).length = min 11 df.rowCount - 2 := by
      rw [kRange, List.length_range']
    intro hx
    rw [hx] at hlen
    simp only [List.length_nil] at hlen
    omega
  obtain ⟨k, hk, hkmem⟩ := findElbow_mem (kRange df.rowCount)
    ((kRange df.rowCount).map (fun j => B.kmeansInertia j df.clusterMatrix)) hne
  have hck : clusteringChooseK B df none = some k := hk
  refine ⟨clusteringFitResult B df k, ?_, hkmem, ((hchar k).mp hkmem).1, ?_⟩
  · unfold clustering_analysis
    rw [if_neg (by omega), hck]
  · show k ≤ min 11 df.rowCount - 1
    have hlt := ((hchar k).mp hkmem).2
    omega

/-- Witness for the amended C1 at a concrete four-row dataframe. -/
theorem clustering_auto_k_in_range_witness :
    (∀ k, k ∈ kRange fourRowCluster.rowCount ↔
      2 ≤ k ∧ k < min 11 fourRowCluster.rowCount) ∧
    ∃ r, clustering_analysis mlTrivialBackend fourRowCluster none = .ok r ∧
      r.kmeans.n_clusters ∈ kRange fourRowCluster.rowCount ∧
      2 ≤ r.kmeans.n_clusters ∧
      r.kmeans.n_clusters ≤ min 11 fourRowCluster.rowCount - 1 :=
  clustering_auto_k_in_range mlTrivialBackend fourRowCluster (by decide) (by decide)
    (by decide)

/-- C8: the expected recoverable conditions are returned as error values
carrying a diagnostic string: clustering yields its error value exactly
when fewer than 2 numeric columns exist, and feature importance yields its
error value exactly when the named target column is absent. -/
theorem recoverable_error_results :
    (∀ (B : MLBackend) (df : Dataset) (n : Option Nat),
        (∃ msg, clustering_analysis B df n = .errorResult msg) ↔
          df.numericColumns.length < 2) ∧
    (∀ (B : FIBackend) (df : Dataset) (t tt : String),
        (∃ msg, feature_importance_analysis B df t tt = .errorResult msg) ↔
          df.columns.find? (fun c => c.name = t) = none) := by
  constructor
  · intro B df n
    constructor
    · rintro ⟨msg, hmsg⟩
      by_contra hcol
      unfold clustering_analysis at hmsg
      rw [if_neg hcol] at hmsg
      cases hck : clusteringChooseK B df n <;> rw [hck] at hmsg <;>
        exact ClusteringOutcome.noConfusion hmsg
    · intro h
      refine ⟨"Need at least 2 numerical columns for clustering", ?_⟩
      unfold clustering_analysis
      rw [if_pos h]
  · intro B df t tt
    constructor
    · rintro ⟨msg, hmsg⟩
      cases hf : df.columns.find? (fun c => c.name = t) with
      | none => rfl
      | some y =>
          unfold feature_importance_analysis at hmsg
          rw [hf] at hmsg
          exact FIOutcome.noConfusion hmsg
    · intro h
      refine ⟨"Target column " ++ t ++ " not found", ?_⟩
      unfold feature_importance_analysis
      rw [h]

/-- Witness for C8 at a concrete dataframe with one numeric column. -/
theorem recoverable_error_results_witness :
    ∃ msg, clustering_analysis mlTrivialBackend oneNumericColumn none =
      .errorResult msg :=
  (recoverable_error_results.1 mlTrivialBackend oneNumericColumn none).mpr (by decide)

/-- C9: no analysis operation mutates the dataframe it is given — the
dataframe the caller holds after each call is exactly the one passed in;
the clustering imputation only builds the fresh matrix
`Dataset.clusterMatrix df`. -/
theorem analyses_do_not_mutate (BS : StatBackend) (BM : MLBackend) (BF : FIBackend)
    (df : Dataset) (n : Option Nat) (t tt : String) :
    (statistical_analysis_st BS df).2 = df ∧
    (clustering_analysis_st BM df n).2 = df ∧
    (feature_importance_analysis_st BF df t tt).2 = df :=
  ⟨rfl, rfl, rfl⟩

/-- C10: on a well-formed dataframe with at least 2 numeric columns but at
most 2 rows, the auto-k path reaches `k_range[0]` on an empty candidate
range and the call ends in the uncaught indexing error — neither a result
nor an error value. -/
theorem clustering_small_data_index_error (B : MLBackend) (df : Dataset)
    (_hwf : df.WellFormed) (hcols : 2 ≤ df.numericColumns.length)
    (hrows : df.rowCount ≤ 2) :
    clustering_analysis B df none = .indexError := by
  have hkr : kRange df.rowCount = [] := by
    rw [kRange]
    have h0 : min 11 df.rowCount - 2 = 0 := by omega
    rw [h0]
    rfl
  have hck : clusteringChooseK B df none = none := by
    show findElbow (kRange df.rowCount)
      ((kRange df.rowCount).map (fun j => B.kmeansInertia j df.clusterMatrix)) = none
    rw [hkr]
    rfl
  unfold clustering_analysis
  rw [if_neg (by omega), hck]

/-- Witness for C10 at a concrete two-row, two-column dataframe. -/
theorem clustering_small_data_index_error_witness :
    clustering_analysis mlTrivialBackend twoRowCluster none = .indexError :=
  clustering_small_data_index_error mlTrivialBackend twoRowCluster (by decide)
    (by decide) (by decide)

/-- Characterization of the automatic task-type inference: classification
iff the target has object dtype or fewer than 10 distinct values,
regression otherwise. -/
theorem inferTask_auto (y : Column) :
    (inferTask "auto" y = "classification" ↔ (y.isObject = true ∨ y.nunique < 10)) ∧
    (inferTask "auto" y = "regression" ↔ (y.isObject = false ∧ 10 ≤ y.nunique)) := by
  unfold inferTask
  rw [if_pos rfl]
  by_cases hcond : (y.isObject || decide (y.nunique < 10)) = true
  · rw [if_pos hcond]
    rw [Bool.or_eq_true, decide_eq_true_eq] at hcond
    refine ⟨iff_of_true rfl hcond, iff_of_false (by decide) ?_⟩
    rintro ⟨hof, hge⟩
    rcases hcond with h | h
    · rw [hof] at h
      exact Bool.noConfusion h
    · omega
  · rw [if_neg hcond]
    rw [Bool.or_eq_true, decide_eq_true_eq] at hcond
    push_neg at hcond
    obtain ⟨ho, hn⟩ := hcond
    have hof : y.isObject = false := by
      cases h : y.isObject
      · rfl
      · exact absurd h ho
    refine ⟨iff_of_false (by decide) ?_, iff_of_true rfl ⟨hof, by omega⟩⟩
    rintro (h | h)
    · exact ho h
    · omega

/-- C2 counterexample: a numeric target with exactly 10 distinct values is
inferred as regression, not classification (the boundary `< 10` excludes
10). -/
theorem task_inference_ten_distinct_cex :
    tenDistinctTarget.isObject = false ∧ tenDistinctTarget.nunique = 10 ∧
    ∃ r, feature_importance_analysis fiTrivialBackend tenDistinctDataset "t" "auto" =
        .ok r ∧ r.task_type = "regression" ∧ r.task_type ≠ "classification" := by
  refine ⟨rfl, by decide, ⟨_, rfl, rfl, by decide⟩⟩

/-- C2 (amended): under automatic inference, the task is classification
iff the target is non-numeric or has fewer than 10 distinct values, and
regression otherwise — so a numeric target with exactly 10 distinct values
is inferred as regression. -/
theorem task_inference_boundary (B : FIBackend) (df : Dataset) (t : String)
    (y : Column) (hy : df.columns.find? (fun c => c.name = t) = some y) :
    ∃ r, feature_importance_analysis B df t "auto" = .ok r ∧
      (r.task_type = "classification" ↔ (y.isObject = true ∨ y.nunique < 10)) ∧
      (r.task_type = "regression" ↔ (y.isObject = false ∧ 10 ≤ y.nunique)) := by
  have hmain : feature_importance_analysis B df t "auto" =
      .ok (fiSuccessResult B df t "auto" y) := by
    unfold feature_importance_analysis
    rw [hy]
  exact ⟨_, hmain, (inferTask_auto y).1, (inferTask_auto y).2⟩

/-- Witness for the amended C2 at the concrete ten-distinct-value target. -/
theorem task_inference_boundary_witness :
    ∃ r, feature_importance_analysis fiTrivialBackend tenDistinctDataset "t" "auto" =
        .ok r ∧
      (r.task_type = "classification" ↔
        (tenDistinctTarget.isObject = true ∨ tenDistinctTarget.nunique < 10)) ∧
      (r.task_type = "regression" ↔
        (tenDistinctTarget.isObject = false ∧ 10 ≤ tenDistinctTarget.nunique)) :=
  task_inference_boundary fiTrivialBackend tenDistinctDataset "t" tenDistinctTarget rfl

/-- C3: when the SHAP step fails — for any reason, modelled by the backend
returning nothing for every attribution request — the operation still
succeeds, and the result carries the native importances under both keys:
`shap_importance` equals `feature_importance` (same features, same ranking,
same numbers); no engine-level error is produced. -/
theorem shap_fallback_reuses_native (B : FIBackend) (df : Dataset) (t tt : String)
    (y : Column) (hy : df.columns.find? (fun c => c.name = t) = some y)
    (hfail : ∀ task X ycol, B.shapMeanAbs task X ycol = none) :
    ∃ r, feature_importance_analysis B df t tt = .ok r ∧
      r.shap_importance = r.feature_importance ∧
      r.feature_importance = List.insertionSort impDesc
        (zipRecords (B.encodedColumns (df.dropColumn t))
          (B.importances (inferTask tt y) (df.dropColumn t) y)) := by
  have hshap : (match B.shapMeanAbs (inferTask tt y) (df.dropColumn t) y with
      | some sv => List.insertionSort impDesc
          (zipRecords (B.encodedColumns (df.dropColumn t)) sv)
      | none => List.insertionSort impDesc (zipRecords
          (B.encodedColumns (df.dropColumn t))
          (B.importances (inferTask tt y) (df.dropColumn t) y))) =
      List.insertionSort impDesc (zipRecords (B.encodedColumns (df.dropColumn t))
        (B.importances (inferTask tt y) (df.dropColumn t) y)) := by
    rw [hfail]
  have hmain : feature_importance_analysis B df t tt =
      .ok (fiSuccessResult B df t tt y) := by
    unfold feature_importance_analysis
    rw [hy]
  exact ⟨_, hmain, hshap, rfl⟩

/-- Witness for C3 at a concrete dataframe and a backend whose SHAP step
always fails. -/
theorem shap_fallback_reuses_native_witness :
    ∃ r, feature_importance_analysis fiTrivialBackend tenDistinctDataset "t" "auto" =
        .ok r ∧
      r.shap_importance = r.feature_importance ∧
      r.feature_importance = List.insertionSort impDesc
        (zipRecords (fiTrivialBackend.encodedColumns (tenDistinctDataset.dropColumn "t"))
          (fiTrivialBackend.importances (inferTask "auto" tenDistinctTarget)
            (tenDistinctDataset.dropColumn "t") tenDistinctTarget)) :=
  shap_fallback_reuses_native fiTrivialBackend tenDistinctDataset "t" "auto"
    tenDistinctTarget rfl (fun _ _ _ => rfl)

end EDA
